import Mathlib

/-!
Verification of the LinkedIn post refinement workflow
(src/linkedin_multi_conversation.py).

The development shallowly embeds the program: messages and the
conversation `State` with the id-based list-merge semantics of
`add_messages`, the generation step `generate_linkedin_post` with its
three-attempt retry loop (instrumented with the list of prompts actually
sent to the generator), the feedback step `human_node`, and the workflow
run loop.  Message ids, random UUID strings in the source, are modelled
by natural numbers drawn from a counter threaded through the engine.
The external generator is modelled as an oracle mapping the attempt
index and the prompt to either a generated post or an error.
-/

namespace LinkedInPost

/-- A chat message: role ("human"/"ai"/"system"), content, and an
optional id (`none` models a freshly constructed message whose id has
not yet been assigned by the merge function). -/
structure Message where
  role : String
  content : String
  mid : Option Nat
deriving DecidableEq, Repr

/-- HumanMessage(content=...) from langchain: a fresh human message. -/
def HumanMessage (content : String) : Message :=
  { role := "human", content := content, mid := none }

/-- AIMessage(content=...) from langchain: a fresh ai message. -/
def AIMessage (content : String) : Message :=
  { role := "ai", content := content, mid := none }

/-- The application state (class State, src lines 21-30): topic plus the
two message lists merged with add_messages. -/
structure State where
  linkedin_topic : String
  generated_post : List Message := []
  human_feedback : List Message := []
deriving DecidableEq, Repr

/-- Assign fresh ids (from the counter) to the messages that lack one,
left to right; returns the updated list and the next free id.  Models
the UUID assignment add_messages performs on id-less messages. -/
def assignIds : Nat → List Message → List Message × Nat
  | n, [] => ([], n)
  | n, m :: ms =>
    match m.mid with
    | some _ => let r := assignIds n ms; (m :: r.1, r.2)
    | none => let r := assignIds (n + 1) ms; ({ m with mid := some n } :: r.1, r.2)

/-- Merge one incoming message into the accumulated list: if a message
with the same id is present it is replaced in place, otherwise the
message is appended.  This is the per-message step of add_messages. -/
def mergeOne (acc : List Message) (m : Message) : List Message :=
  if acc.any (fun x => decide (x.mid = m.mid)) then
    acc.map (fun x => if x.mid = m.mid then m else x)
  else acc ++ [m]

/-- The add_messages reducer used by both annotated State fields
(src lines 28, 30): assign ids to both sides, then fold the right list
into the left with replace-by-id-or-append semantics. -/
def add_messages (n : Nat) (left right : List Message) : List Message × Nat :=
  let l := assignIds n left
  let r := assignIds l.2 right
  (r.1.foldl mergeOne l.1, r.2)

/-- The varying parts of the prompt built at src lines 70-80: the topic,
the content of the latest feedback entry, and the carried error text. -/
structure Prompt where
  topic : String
  latestFeedback : String
  error : String
deriving DecidableEq, Repr

/-- The external LLM (self.invoke, src line 83), modelled as an oracle
from the attempt index and the prompt to a post or an error. -/
abbrev Generator := Nat → Prompt → Except String String

/-- max_retries = 3 (src line 59). -/
def max_retries : Nat := 3

/-- The retry loop of generate_linkedin_post (src lines 67-100).
Arguments: tries remaining, current attempt index, carried error text.
Returns the result (the generated post, or the final attempt's raw
error, re-raised as at src line 100) together with the list of prompts
actually sent to the generator, in order. -/
def retryLoop (gen : Generator) (topic fb : String) :
    Nat → Nat → String → Except String String × List Prompt
  | 0, _, err => (Except.error err, [])
  | remaining + 1, attempt, err =>
    let p : Prompt := { topic := topic, latestFeedback := fb, error := err }
    match gen attempt p with
    | Except.ok post => (Except.ok post, [p])
    | Except.error e =>
      if remaining = 0 then (Except.error e, [p])
      else
        let k := retryLoop gen topic fb remaining (attempt + 1) ("Error occurred: " ++ e)
        (k.1, p :: k.2)

/-- The feedback list used by the generation step (src line 56): the
state's feedback, or a single placeholder entry when it is empty. -/
def feedback_list (s : State) : List Message :=
  if s.human_feedback.isEmpty then [HumanMessage "No Feedback yet"] else s.human_feedback

/-- The latest-feedback text interpolated into the prompt (src line 72):
the content of the last feedback entry, or the literal fallback. -/
def latest_feedback (s : State) : String :=
  match (feedback_list s).getLast? with
  | some m => m.content
  | none => "No feedback yet"

/-- The prompt of the first attempt of a generation cycle: topic and
latest feedback, with no carried error. -/
def first_prompt (s : State) : Prompt :=
  { topic := s.linkedin_topic, latestFeedback := latest_feedback s, error := "" }

/-- The state update returned by the generation step on success
(src lines 92-95). -/
structure GenUpdate where
  generated_post : List Message
  human_feedback : List Message
deriving DecidableEq, Repr

/-- generate_linkedin_post (src lines 43-100): run the retry loop; on
success return the update dict appending one AIMessage and echoing the
feedback list; on exhaustion propagate the final error.  The second
component is the trace of prompts sent to the generator. -/
def generate_linkedin_post (gen : Generator) (s : State) :
    Except String GenUpdate × List Prompt :=
  let r := retryLoop gen s.linkedin_topic (latest_feedback s) max_retries 0 ""
  (match r.1 with
   | Except.ok post =>
     Except.ok { generated_post := [AIMessage post], human_feedback := feedback_list s }
   | Except.error e => Except.error e,
   r.2)

/-- Python str.lower(), modelled on the character list. -/
def pyLower (s : String) : String := ⟨s.data.map Char.toLower⟩

/-- Python str.strip(): drop whitespace from both ends, modelled on the
character list. -/
def pyStrip (s : String) : String :=
  ⟨((s.data.dropWhile Char.isWhitespace).reverse.dropWhile Char.isWhitespace).reverse⟩

/-- Result of human_node (src lines 102-131): either Command(goto=END)
or an update dict carrying one new feedback message. -/
inductive HumanResult where
  | gotoEnd : HumanResult
  | update (human_feedback : List Message) : HumanResult
deriving DecidableEq, Repr

/-- human_node's decision on the resumed user feedback (src lines
125-131): terminate on "done" after strip().lower(), else return the
raw response as a new HumanMessage. -/
def human_node (user_feedback : String) : HumanResult :=
  if pyLower (pyStrip user_feedback) = "done" then HumanResult.gotoEnd
  else HumanResult.update [HumanMessage user_feedback]

/-- Applying the generation step's update dict to the state: each
annotated field merges via add_messages (src lines 28, 30), the id
counter threading through both channels. -/
def applyGenUpdate (n : Nat) (s : State) (u : GenUpdate) : State × Nat :=
  let g := add_messages n s.generated_post u.generated_post
  let h := add_messages g.2 s.human_feedback u.human_feedback
  ({ s with generated_post := g.1, human_feedback := h.1 }, h.2)

/-- Outcome of the feedback step at the engine level. -/
inductive StepResult where
  | terminated (s : State) (n : Nat)
  | goOn (s : State) (n : Nat)
deriving DecidableEq, Repr

/-- State carried by a step result. -/
def StepResult.state : StepResult → State
  | StepResult.terminated s _ => s
  | StepResult.goOn s _ => s

/-- The feedback step applied to the state: human_node decides, and a
returned update dict is merged via add_messages; Command(goto=END)
leaves the state untouched. -/
def human_step (n : Nat) (s : State) (resp : String) : StepResult :=
  match human_node resp with
  | HumanResult.gotoEnd => StepResult.terminated s n
  | HumanResult.update fb =>
    let h := add_messages n s.human_feedback fb
    StepResult.goOn { s with human_feedback := h.1 } h.2

/-- Observable engine events of one run, used to state where
checkpoints are written relative to suspensions. -/
inductive EngineEvent where
  | generated
  | checkpoint (threadId : String)
  | awaitFeedback
  | resumed (resp : String)
deriving DecidableEq, Repr

/-- Final outcome of a (scripted) run. -/
inductive RunResult where
  | terminated (s : State) (n : Nat)
  | awaiting (s : State) (n : Nat)
  | failed (e : String) (s : State) (n : Nat)
deriving DecidableEq, Repr

/-- Modelled from the spec: the workflow engine driving the compiled
graph (workflow.compile with checkpointer and interrupt_before, src
lines 138-151) is the langgraph runtime, which is not part of this
repository; per the spec it runs model_node, writes a checkpoint for
the thread identity, suspends awaiting feedback, and on resume runs
human_node, looping back to model_node on non-"done" feedback.  The
generator oracle is indexed by the cycle number; `resps` scripts the
reviewer's successive responses; the result comes with the event
trace. -/
def runAux (gens : Nat → Generator) (threadId : String)
    (resps : List String) (cycle : Nat) (s : State) (n : Nat) :
    RunResult × List EngineEvent :=
  match (generate_linkedin_post (gens cycle) s).1 with
  | Except.error e => (RunResult.failed e s n, [])
  | Except.ok u =>
    let p := applyGenUpdate n s u
    match resps with
    | [] =>
      (RunResult.awaiting p.1 p.2,
       [EngineEvent.generated, EngineEvent.checkpoint threadId, EngineEvent.awaitFeedback])
    | r :: rest =>
      match human_step p.2 p.1 r with
      | StepResult.terminated s2 n2 =>
        (RunResult.terminated s2 n2,
         [EngineEvent.generated, EngineEvent.checkpoint threadId,
          EngineEvent.awaitFeedback, EngineEvent.resumed r])
      | StepResult.goOn s2 n2 =>
        let k := runAux gens threadId rest (cycle + 1) s2 n2
        (k.1,
         EngineEvent.generated :: EngineEvent.checkpoint threadId ::
         EngineEvent.awaitFeedback :: EngineEvent.resumed r :: k.2)

/-- The hard-coded thread identity of thread_config (src lines 154-156),
passed as the config of both graph.stream (line 163) and every
graph.invoke resume call (line 172). -/
def thread_config_thread_id : String := "linkedin_multi_conversation_thread"

/-- The initial state built at src line 159. -/
def initial_state : State := { linkedin_topic := "The future of AI in healthcare" }

/-- The main loop (src lines 161-176): stream the graph from the
initial state under the hard-coded thread identity, feeding scripted
reviewer responses at each suspension. -/
def main_run (gens : Nat → Generator) (resps : List String) :
    RunResult × List EngineEvent :=
  runAux gens thread_config_thread_id resps 0 initial_state 0

/-- A persisted checkpoint: thread identity, state snapshot and the id
counter. -/
structure Checkpoint where
  threadId : String
  state : State
  nextId : Nat
deriving DecidableEq, Repr

/-- Modelled from the spec: the MemorySaver checkpoint store (src line
136) keyed by thread identity; a put supersedes the previous entry for
the same key. -/
def storePut (store : List (String × Checkpoint)) (k : String) (c : Checkpoint) :
    List (String × Checkpoint) :=
  (k, c) :: store

/-- Modelled from the spec: read the latest checkpoint for a thread
identity. -/
def storeGet (store : List (String × Checkpoint)) (k : String) : Option Checkpoint :=
  match store.find? (fun q => decide (q.1 = k)) with
  | some q => some q.2
  | none => none

/-- Number of successful generation events in a trace. -/
def genCount : List EngineEvent → Nat
  | [] => 0
  | EngineEvent.generated :: rest => genCount rest + 1
  | _ :: rest => genCount rest

/-- Checkpoints and suspensions come exactly in adjacent pairs: every
checkpoint (always for the given thread identity) is immediately
followed by the suspension awaiting feedback, and every suspension is
immediately preceded by such a checkpoint; no checkpoint is written
anywhere else in the trace. -/
def WellCheckpointed (tid : String) : List EngineEvent → Prop
  | [] => True
  | EngineEvent.checkpoint t :: EngineEvent.awaitFeedback :: rest =>
    t = tid ∧ WellCheckpointed tid rest
  | EngineEvent.checkpoint _ :: _ => False
  | EngineEvent.awaitFeedback :: _ => False
  | _ :: rest => WellCheckpointed tid rest

/-- Well-formed message list relative to the id counter: every message
has an assigned id below the counter, and ids are pairwise distinct. -/
def WF (n : Nat) (msgs : List Message) : Prop :=
  (∀ m ∈ msgs, ∃ i, m.mid = some i ∧ i < n) ∧
  msgs.Pairwise (fun a b => a.mid ≠ b.mid)

lemma assignIds_assigned {l : List Message} (h : ∀ m ∈ l, m.mid ≠ none) (n : Nat) :
    assignIds n l = (l, n) := by
  induction l with
  | nil => rfl
  | cons m ms ih =>
    cases hm : m.mid with
    | none => exact absurd hm (h m (List.mem_cons_self m ms))
    | some i =>
      simp only [assignIds, hm]
      rw [ih (fun x hx => h x (List.mem_cons_of_mem m hx))]

lemma mergeOne_append {acc : List Message} {m : Message}
    (h : ∀ x ∈ acc, x.mid ≠ m.mid) : mergeOne acc m = acc ++ [m] := by
  have hany : acc.any (fun x => decide (x.mid = m.mid)) = false := by
    simp only [List.any_eq_false, decide_eq_true_eq]
    exact h
  simp [mergeOne, hany]

lemma map_replace_of_mem {l : List Message} (hp : l.Pairwise (fun a b => a.mid ≠ b.mid))
    {m : Message} (hm : m ∈ l) :
    l.map (fun x => if x.mid = m.mid then m else x) = l := by
  induction l with
  | nil => rfl
  | cons a t ih =>
    rw [List.pairwise_cons] at hp
    simp only [List.map_cons]
    rcases List.mem_cons.mp hm with h1 | h1
    · rw [h1, ite_self]
      congr 1
      have hx : ∀ x ∈ t, (if x.mid = a.mid then a else x) = x := by
        intro x hx
        exact if_neg (fun hc => (hp.1 x hx) hc.symm)
      calc t.map (fun x => if x.mid = a.mid then a else x) = t.map (fun x => x) :=
            List.map_congr_left hx
        _ = t := List.map_id t
    · rw [if_neg (hp.1 m h1)]
      congr 1
      exact ih hp.2 h1

lemma mergeOne_mem {l : List Message} (hp : l.Pairwise (fun a b => a.mid ≠ b.mid))
    {m : Message} (hm : m ∈ l) : mergeOne l m = l := by
  have hany : l.any (fun x => decide (x.mid = m.mid)) = true := by
    simp only [List.any_eq_true, decide_eq_true_eq]
    exact ⟨m, hm, rfl⟩
  simp only [mergeOne, hany, if_true]
  exact map_replace_of_mem hp hm

lemma foldl_mergeOne_self {l : List Message} (hp : l.Pairwise (fun a b => a.mid ≠ b.mid)) :
    ∀ r : List Message, (∀ m ∈ r, m ∈ l) → r.foldl mergeOne l = l := by
  intro r
  induction r with
  | nil => intro _; rfl
  | cons m t ih =>
    intro h
    rw [List.foldl_cons, mergeOne_mem hp (h m (List.mem_cons_self m t))]
    exact ih (fun x hx => h x (List.mem_cons_of_mem m hx))

lemma add_messages_self {n : Nat} {l : List Message}
    (ha : ∀ m ∈ l, m.mid ≠ none) (hp : l.Pairwise (fun a b => a.mid ≠ b.mid)) :
    add_messages n l l = (l, n) := by
  simp only [add_messages]
  rw [assignIds_assigned ha]
  rw [assignIds_assigned ha]
  exact Prod.ext (foldl_mergeOne_self hp l (fun m hm => hm)) rfl

lemma add_messages_append_one {n : Nat} {left : List Message} {m : Message}
    (hm : m.mid = none) (hl : ∀ x ∈ left, ∃ i, x.mid = some i ∧ i < n) :
    add_messages n left [m] = (left ++ [{ m with mid := some n }], n + 1) := by
  have ha : ∀ x ∈ left, x.mid ≠ none := by
    intro x hx
    rcases hl x hx with ⟨i, hi, _⟩
    simp [hi]
  simp only [add_messages]
  rw [assignIds_assigned ha]
  have h1 : assignIds n [m] = ([{ m with mid := some n }], n + 1) := by
    simp [assignIds, hm]
  rw [h1]
  have h2 : ∀ x ∈ left, x.mid ≠ ({ m with mid := some n } : Message).mid := by
    intro x hx
    rcases hl x hx with ⟨i, hi, hlt⟩
    simp [hi]
    omega
  simp only [List.foldl_cons, List.foldl_nil]
  exact Prod.ext (mergeOne_append h2) rfl

lemma WF_nil (n : Nat) : WF n [] := ⟨by simp, List.Pairwise.nil⟩

lemma WF_mono {n m : Nat} {l : List Message} (h : WF n l) (hle : n ≤ m) : WF m l := by
  refine ⟨fun x hx => ?_, h.2⟩
  rcases h.1 x hx with ⟨i, hi, hlt⟩
  exact ⟨i, hi, lt_of_lt_of_le hlt hle⟩

lemma WF_append {n : Nat} {l : List Message} (h : WF n l) (r c : String) :
    WF (n + 1) (l ++ [{ role := r, content := c, mid := some n }]) := by
  constructor
  · intro x hx
    rcases List.mem_append.mp hx with h1 | h1
    · rcases h.1 x h1 with ⟨i, hi, hlt⟩
      exact ⟨i, hi, Nat.lt_succ_of_lt hlt⟩
    · rcases List.mem_singleton.mp h1 with rfl
      exact ⟨n, rfl, Nat.lt_succ_self n⟩
  · rw [List.pairwise_append]
    refine ⟨h.2, List.pairwise_singleton _ _, ?_⟩
    intro a ha b hb
    rcases List.mem_singleton.mp hb with rfl
    rcases h.1 a ha with ⟨i, hi, hlt⟩
    simp [hi]
    omega

lemma WF_ne_none {n : Nat} {l : List Message} (h : WF n l) : ∀ m ∈ l, m.mid ≠ none := by
  intro m hm
  rcases h.1 m hm with ⟨i, hi, _⟩
  simp [hi]

lemma generate_ok_shape {gen : Generator} {s : State} {u : GenUpdate}
    (h : (generate_linkedin_post gen s).1 = Except.ok u) :
    ∃ post,
      u = { generated_post := [AIMessage post], human_feedback := feedback_list s } := by
  simp only [generate_linkedin_post] at h
  cases hr : (retryLoop gen s.linkedin_topic (latest_feedback s) max_retries 0 "").1 with
  | ok post =>
    rw [hr] at h
    simp only [Except.ok.injEq] at h
    exact ⟨post, h.symm⟩
  | error e =>
    rw [hr] at h
    simp at h

lemma applyGenUpdate_nonempty {n : Nat} {s : State} (post : String)
    (hg : WF n s.generated_post) (hh : WF n s.human_feedback)
    (hne : s.human_feedback ≠ []) :
    applyGenUpdate n s { generated_post := [AIMessage post], human_feedback := feedback_list s }
      = ({ s with generated_post :=
            s.generated_post ++ [{ role := "ai", content := post, mid := some n }] }, n + 1) := by
  have hfl : feedback_list s = s.human_feedback := by
    simp [feedback_list, List.isEmpty_iff, hne]
  simp only [applyGenUpdate, hfl]
  have h1 : add_messages n s.generated_post [AIMessage post]
      = (s.generated_post ++ [{ role := "ai", content := post, mid := some n }], n + 1) :=
    add_messages_append_one rfl hg.1
  rw [h1]
  have h2 : add_messages (n + 1) s.human_feedback s.human_feedback = (s.human_feedback, n + 1) :=
    add_messages_self (WF_ne_none hh) hh.2
  rw [h2]

lemma applyGenUpdate_empty {n : Nat} {s : State} (post : String)
    (hg : WF n s.generated_post) (hempty : s.human_feedback = []) :
    applyGenUpdate n s { generated_post := [AIMessage post], human_feedback := feedback_list s }
      = ({ s with
            generated_post :=
              s.generated_post ++ [{ role := "ai", content := post, mid := some n }],
            human_feedback :=
              [{ role := "human", content := "No Feedback yet", mid := some (n + 1) }] },
          n + 2) := by
  have hfl : feedback_list s = [HumanMessage "No Feedback yet"] := by
    simp [feedback_list, hempty]
  simp only [applyGenUpdate, hfl]
  have h1 : add_messages n s.generated_post [AIMessage post]
      = (s.generated_post ++ [{ role := "ai", content := post, mid := some n }], n + 1) :=
    add_messages_append_one rfl hg.1
  rw [h1]
  have h2 : add_messages (n + 1) s.human_feedback [HumanMessage "No Feedback yet"]
      = ([{ role := "human", content := "No Feedback yet", mid := some (n + 1) }], n + 2) := by
    rw [hempty]
    exact add_messages_append_one rfl (by simp)
  rw [h2]

lemma human_step_done {n : Nat} {s : State} {resp : String}
    (h : pyLower (pyStrip resp) = "done") :
    human_step n s resp = StepResult.terminated s n := by
  simp [human_step, human_node, h]

lemma human_step_goOn {n : Nat} {s : State} {resp : String}
    (h : pyLower (pyStrip resp) ≠ "done")
    (hl : ∀ m ∈ s.human_feedback, ∃ i, m.mid = some i ∧ i < n) :
    human_step n s resp = StepResult.goOn
      { s with human_feedback :=
          s.human_feedback ++ [{ role := "human", content := resp, mid := some n }] }
      (n + 1) := by
  simp only [human_step, human_node, if_neg h]
  rw [add_messages_append_one rfl hl]
  rfl

lemma generate_ok_of_total (f : Nat → Prompt → String) (s : State) :
    (generate_linkedin_post (fun a p => Except.ok (f a p)) s).1
      = Except.ok
          { generated_post :=
              [AIMessage (f 0 { topic := s.linkedin_topic,
                                latestFeedback := latest_feedback s, error := "" })],
            human_feedback := feedback_list s } := rfl

lemma applyGen_shape {n : Nat} {s : State} (post : String)
    (hg : WF n s.generated_post) (hh : WF n s.human_feedback) :
    ∃ s1 n1,
      applyGenUpdate n s
          { generated_post := [AIMessage post], human_feedback := feedback_list s }
        = (s1, n1) ∧
      s1.linkedin_topic = s.linkedin_topic ∧
      s1.generated_post
        = s.generated_post ++ [{ role := "ai", content := post, mid := some n }] ∧
      s1.human_feedback.map Message.content = (feedback_list s).map Message.content ∧
      s1.human_feedback ≠ [] ∧
      s.human_feedback <+: s1.human_feedback ∧
      WF n1 s1.generated_post ∧ WF n1 s1.human_feedback ∧ n < n1 := by
  by_cases hne : s.human_feedback = []
  · refine ⟨_, _, applyGenUpdate_empty post hg hne, rfl, rfl, ?_, by simp, ?_, ?_, ?_, ?_⟩
    · simp [feedback_list, hne, HumanMessage]
    · rw [hne]; exact ⟨_, rfl⟩
    · exact WF_mono (WF_append hg "ai" post) (by omega)
    · have := WF_append (WF_nil (n + 1)) "human" "No Feedback yet"
      simpa using this
    · omega
  · refine ⟨_, _, applyGenUpdate_nonempty post hg hh hne, rfl, rfl, ?_, hne, ?_, ?_, ?_, ?_⟩
    · simp [feedback_list, List.isEmpty_iff, hne]
    · exact List.prefix_refl _
    · exact WF_append hg "ai" post
    · exact WF_mono hh (by omega)
    · omega

lemma runAux_ok {gens : Nat → Generator} {tid : String} {cycle : Nat} {s : State} {n : Nat}
    {u : GenUpdate} (hok : (generate_linkedin_post (gens cycle) s).1 = Except.ok u)
    (r : String) (rest : List String) :
    runAux gens tid (r :: rest) cycle s n
      = match human_step (applyGenUpdate n s u).2 (applyGenUpdate n s u).1 r with
        | StepResult.terminated s2 n2 =>
          (RunResult.terminated s2 n2,
           [EngineEvent.generated, EngineEvent.checkpoint tid,
            EngineEvent.awaitFeedback, EngineEvent.resumed r])
        | StepResult.goOn s2 n2 =>
          ((runAux gens tid rest (cycle + 1) s2 n2).1,
           EngineEvent.generated :: EngineEvent.checkpoint tid ::
           EngineEvent.awaitFeedback :: EngineEvent.resumed r ::
           (runAux gens tid rest (cycle + 1) s2 n2).2) := by
  rw [runAux, hok]

lemma runAux_ok_nil {gens : Nat → Generator} {tid : String} {cycle : Nat} {s : State} {n : Nat}
    {u : GenUpdate} (hok : (generate_linkedin_post (gens cycle) s).1 = Except.ok u) :
    runAux gens tid [] cycle s n
      = (RunResult.awaiting (applyGenUpdate n s u).1 (applyGenUpdate n s u).2,
         [EngineEvent.generated, EngineEvent.checkpoint tid, EngineEvent.awaitFeedback]) := by
  rw [runAux, hok]

lemma runAux_err {gens : Nat → Generator} {tid : String} {cycle : Nat} {s : State} {n : Nat}
    {e : String} (herr : (generate_linkedin_post (gens cycle) s).1 = Except.error e)
    (resps : List String) :
    runAux gens tid resps cycle s n = (RunResult.failed e s n, []) := by
  rw [runAux, herr]

lemma genCount_block (tid r : String) (rest : List EngineEvent) :
    genCount (EngineEvent.generated :: EngineEvent.checkpoint tid ::
      EngineEvent.awaitFeedback :: EngineEvent.resumed r :: rest) = genCount rest + 1 := rfl

lemma runAux_failed {gens : Nat → Generator} {tid : String} :
    ∀ (resps : List String) (cycle : Nat) (s : State) (n : Nat) (w : String)
      (s2 : State) (n2 : Nat) (evs : List EngineEvent),
      runAux gens tid resps cycle s n = (RunResult.failed w s2 n2, evs) →
      ∃ c, (generate_linkedin_post (gens c) s2).1 = Except.error w := by
  intro resps
  induction resps with
  | nil =>
    intro cycle s n w s2 n2 evs h
    cases hg : (generate_linkedin_post (gens cycle) s).1 with
    | error e =>
      rw [runAux_err hg []] at h
      have h2 : RunResult.failed e s n = RunResult.failed w s2 n2 := congrArg Prod.fst h
      rcases RunResult.failed.inj h2 with ⟨he, hs, _⟩
      exact ⟨cycle, by rw [← hs, ← he]; exact hg⟩
    | ok u =>
      rw [runAux_ok_nil hg] at h
      exact absurd (congrArg Prod.fst h) (by simp)
  | cons r rest ih =>
    intro cycle s n w s2 n2 evs h
    cases hg : (generate_linkedin_post (gens cycle) s).1 with
    | error e =>
      rw [runAux_err hg (r :: rest)] at h
      have h2 : RunResult.failed e s n = RunResult.failed w s2 n2 := congrArg Prod.fst h
      rcases RunResult.failed.inj h2 with ⟨he, hs, _⟩
      exact ⟨cycle, by rw [← hs, ← he]; exact hg⟩
    | ok u =>
      rw [runAux_ok hg r rest] at h
      cases hstep : human_step (applyGenUpdate n s u).2 (applyGenUpdate n s u).1 r with
      | terminated s3 n3 =>
        rw [hstep] at h
        exact absurd (congrArg Prod.fst h) (by simp)
      | goOn s3 n3 =>
        rw [hstep] at h
        have h3 : (runAux gens tid rest (cycle + 1) s3 n3).1 = RunResult.failed w s2 n2 :=
          congrArg Prod.fst h
        have h4 : runAux gens tid rest (cycle + 1) s3 n3
            = (RunResult.failed w s2 n2, (runAux gens tid rest (cycle + 1) s3 n3).2) := by
          rw [← h3]
        exact ih (cycle + 1) s3 n3 w s2 n2 _ h4

lemma wellCheckpointed_runAux (gens : Nat → Generator) (tid : String) :
    ∀ (resps : List String) (cycle : Nat) (s : State) (n : Nat),
      WellCheckpointed tid (runAux gens tid resps cycle s n).2 := by
  intro resps
  induction resps with
  | nil =>
    intro cycle s n
    cases hg : (generate_linkedin_post (gens cycle) s).1 with
    | error e => rw [runAux_err hg []]; exact trivial
    | ok u => rw [runAux_ok_nil hg]; exact ⟨rfl, trivial⟩
  | cons r rest ih =>
    intro cycle s n
    cases hg : (generate_linkedin_post (gens cycle) s).1 with
    | error e => rw [runAux_err hg (r :: rest)]; exact trivial
    | ok u =>
      rw [runAux_ok hg r rest]
      cases hstep : human_step (applyGenUpdate n s u).2 (applyGenUpdate n s u).1 r with
      | terminated s3 n3 => exact ⟨rfl, trivial⟩
      | goOn s3 n3 => exact ⟨rfl, ih (cycle + 1) s3 n3⟩

lemma runAux_checkpoint_tid {gens : Nat → Generator} {tid : String} :
    ∀ (resps : List String) (cycle : Nat) (s : State) (n : Nat) (ev : EngineEvent),
      ev ∈ (runAux gens tid resps cycle s n).2 →
      ∀ t, ev = EngineEvent.checkpoint t → t = tid := by
  intro resps
  induction resps with
  | nil =>
    intro cycle s n ev hmem t het
    subst het
    cases hg : (generate_linkedin_post (gens cycle) s).1 with
    | error e =>
      rw [runAux_err hg []] at hmem
      simp at hmem
    | ok u =>
      rw [runAux_ok_nil hg] at hmem
      simpa using hmem
  | cons r rest ih =>
    intro cycle s n ev hmem t het
    subst het
    cases hg : (generate_linkedin_post (gens cycle) s).1 with
    | error e =>
      rw [runAux_err hg (r :: rest)] at hmem
      simp at hmem
    | ok u =>
      rw [runAux_ok hg r rest] at hmem
      cases hstep : human_step (applyGenUpdate n s u).2 (applyGenUpdate n s u).1 r with
      | terminated s3 n3 =>
        rw [hstep] at hmem
        simpa using hmem
      | goOn s3 n3 =>
        rw [hstep] at hmem
        simp only [List.mem_cons] at hmem
        rcases hmem with h1 | h1 | h1 | h1 | h1
        · exact absurd h1 (by simp)
        · exact EngineEvent.checkpoint.inj h1
        · exact absurd h1 (by simp)
        · exact absurd h1 (by simp)
        · exact ih (cycle + 1) s3 n3 _ h1 t rfl

lemma generate_ok_total_applied (f : Nat → Nat → Prompt → String) (c : Nat) (s : State) :
    (generate_linkedin_post
        ((fun c2 a p => Except.ok (f c2 a p) : Nat → Generator) c) s).1
      = Except.ok
          { generated_post := [AIMessage (f c 0 (first_prompt s))],
            human_feedback := feedback_list s } := rfl

lemma runAux_scripted (f : Nat → Nat → Prompt → String) (tid : String) :
    ∀ (L : List String), (∀ r ∈ L, pyLower (pyStrip r) ≠ "done") →
    ∀ (cycle : Nat) (s : State) (n : Nat),
      WF n s.generated_post → WF n s.human_feedback →
      ∃ sfin nfin evs,
        runAux (fun c a p => Except.ok (f c a p)) tid (L ++ ["done"]) cycle s n
          = (RunResult.terminated sfin nfin, evs) ∧
        sfin.generated_post.length = s.generated_post.length + L.length + 1 ∧
        sfin.human_feedback.map Message.content
          = (feedback_list s).map Message.content ++ L ∧
        s.generated_post <+: sfin.generated_post ∧
        genCount evs = L.length + 1 := by
  intro L
  induction L with
  | nil =>
    intro _ cycle s n hg hh
    obtain ⟨s1, n1, happ, ht1, hgp1, hfc1, hne1, hpre1, hwg1, hwh1, hlt1⟩ :=
      applyGen_shape (f cycle 0 (first_prompt s)) hg hh
    have hok := generate_ok_total_applied f cycle s
    rw [List.nil_append]
    rw [runAux_ok hok "done" []]
    simp only [happ]
    rw [human_step_done (show pyLower (pyStrip "done") = "done" from rfl)]
    refine ⟨s1, n1,
      [EngineEvent.generated, EngineEvent.checkpoint tid,
       EngineEvent.awaitFeedback, EngineEvent.resumed "done"], rfl, ?_, ?_, ?_, rfl⟩
    · rw [hgp1]
      simp
    · rw [List.append_nil]
      exact hfc1
    · rw [hgp1]
      exact List.prefix_append _ _
  | cons r L2 ih =>
    intro hnd cycle s n hg hh
    have hr : pyLower (pyStrip r) ≠ "done" := hnd r (List.mem_cons_self r L2)
    have hnd2 : ∀ x ∈ L2, pyLower (pyStrip x) ≠ "done" :=
      fun x hx => hnd x (List.mem_cons_of_mem r hx)
    obtain ⟨s1, n1, happ, ht1, hgp1, hfc1, hne1, hpre1, hwg1, hwh1, hlt1⟩ :=
      applyGen_shape (f cycle 0 (first_prompt s)) hg hh
    have hok := generate_ok_total_applied f cycle s
    have hrw : runAux (fun c a p => Except.ok (f c a p)) tid ((r :: L2) ++ ["done"]) cycle s n
        = ((runAux (fun c a p => Except.ok (f c a p)) tid (L2 ++ ["done"]) (cycle + 1)
              { s1 with human_feedback :=
                  s1.human_feedback ++ [{ role := "human", content := r, mid := some n1 }] }
              (n1 + 1)).1,
           EngineEvent.generated :: EngineEvent.checkpoint tid ::
           EngineEvent.awaitFeedback :: EngineEvent.resumed r ::
           (runAux (fun c a p => Except.ok (f c a p)) tid (L2 ++ ["done"]) (cycle + 1)
              { s1 with human_feedback :=
                  s1.human_feedback ++ [{ role := "human", content := r, mid := some n1 }] }
              (n1 + 1)).2) := by
      rw [List.cons_append, runAux_ok hok r (L2 ++ ["done"])]
      simp only [happ]
      rw [human_step_goOn hr hwh1.1]
    obtain ⟨sfin, nfin, evs, hrun, hlen, hcont, hpre, hcount⟩ :=
      ih hnd2 (cycle + 1)
        { s1 with human_feedback :=
            s1.human_feedback ++ [{ role := "human", content := r, mid := some n1 }] }
        (n1 + 1) (WF_mono hwg1 (Nat.le_succ n1)) (WF_append hwh1 "human" r)
    refine ⟨sfin, nfin,
      EngineEvent.generated :: EngineEvent.checkpoint tid ::
      EngineEvent.awaitFeedback :: EngineEvent.resumed r :: evs, ?_, ?_, ?_, ?_, ?_⟩
    · rw [hrw, hrun]
    · have hlen2 : sfin.generated_post.length = s1.generated_post.length + L2.length + 1 := hlen
      have hl3 : s1.generated_post.length = s.generated_post.length + 1 := by
        rw [hgp1]; simp
      simp only [List.length_cons]
      omega
    · have hfl2 : feedback_list
          { s1 with human_feedback :=
              s1.human_feedback ++ [{ role := "human", content := r, mid := some n1 }] }
          = s1.human_feedback ++ [{ role := "human", content := r, mid := some n1 }] := by
        simp [feedback_list]
      calc sfin.human_feedback.map Message.content
          = (feedback_list
              { s1 with human_feedback :=
                  s1.human_feedback ++
                    [{ role := "human", content := r, mid := some n1 }] }).map
                Message.content ++ L2 := hcont
        _ = (s1.human_feedback.map Message.content ++ [r]) ++ L2 := by
            rw [hfl2]; simp
        _ = (feedback_list s).map Message.content ++ (r :: L2) := by
            rw [hfc1, List.append_assoc]; rfl
    · have hpre2 : s1.generated_post <+: sfin.generated_post := hpre
      refine List.IsPrefix.trans ?_ hpre2
      rw [hgp1]
      exact List.prefix_append _ _
    · rw [genCount_block, hcount]
      simp

lemma generate_error_iff (gen : Generator) (s : State) (e : String) :
    (generate_linkedin_post gen s).1 = Except.error e ↔
      ∃ e1 e2,
        gen 0 ⟨s.linkedin_topic, latest_feedback s, ""⟩ = Except.error e1 ∧
        gen 1 ⟨s.linkedin_topic, latest_feedback s, "Error occurred: " ++ e1⟩
          = Except.error e2 ∧
        gen 2 ⟨s.linkedin_topic, latest_feedback s, "Error occurred: " ++ e2⟩
          = Except.error e := by
  cases h0 : gen 0 ⟨s.linkedin_topic, latest_feedback s, ""⟩ with
  | ok post =>
    have hgen : (generate_linkedin_post gen s).1
        = Except.ok { generated_post := [AIMessage post], human_feedback := feedback_list s } := by
      simp [generate_linkedin_post, max_retries, retryLoop, h0]
    rw [hgen]
    constructor
    · intro h; exact absurd h (by simp)
    · rintro ⟨e1, e2, k1, _, _⟩
      exact absurd k1 (by simp)
  | error e1 =>
    cases h1 : gen 1 ⟨s.linkedin_topic, latest_feedback s, "Error occurred: " ++ e1⟩ with
    | ok post =>
      have hgen : (generate_linkedin_post gen s).1
          = Except.ok { generated_post := [AIMessage post], human_feedback := feedback_list s } := by
        simp [generate_linkedin_post, max_retries, retryLoop, h0, h1]
      rw [hgen]
      constructor
      · intro h; exact absurd h (by simp)
      · rintro ⟨e1a, e2, k1, k2, _⟩
        have he := Except.error.inj k1
        subst he
        rw [h1] at k2
        exact absurd k2 (by simp)
    | error e2 =>
      cases h2 : gen 2 ⟨s.linkedin_topic, latest_feedback s, "Error occurred: " ++ e2⟩ with
      | ok post =>
        have hgen : (generate_linkedin_post gen s).1
            = Except.ok { generated_post := [AIMessage post],
                          human_feedback := feedback_list s } := by
          simp [generate_linkedin_post, max_retries, retryLoop, h0, h1, h2]
        rw [hgen]
        constructor
        · intro h; exact absurd h (by simp)
        · rintro ⟨e1a, e2a, k1, k2, k3⟩
          have he := Except.error.inj k1
          subst he
          rw [h1] at k2
          have he2 := Except.error.inj k2
          subst he2
          rw [h2] at k3
          exact absurd k3 (by simp)
      | error e3 =>
        have hgen : (generate_linkedin_post gen s).1 = Except.error e3 := by
          simp [generate_linkedin_post, max_retries, retryLoop, h0, h1, h2]
        rw [hgen]
        constructor
        · intro h
          have he := Except.error.inj h
          subst he
          exact ⟨e1, e2, rfl, h1, h2⟩
        · rintro ⟨e1a, e2a, k1, k2, k3⟩
          have he := Except.error.inj k1
          subst he
          rw [h1] at k2
          have he2 := Except.error.inj k2
          subst he2
          rw [h2] at k3
          rw [Except.error.inj k3]

/-- C1: for a reviewer response whose stripped lowercase form is "done"
the feedback step terminates the workflow and appends no feedback entry;
for every other response it appends exactly one feedback entry carrying
the raw response and loops back to the generation step. -/
theorem feedback_step_spec (n : Nat) (s : State) (resp : String)
    (hl : ∀ m ∈ s.human_feedback, ∃ i, m.mid = some i ∧ i < n) :
    (pyLower (pyStrip resp) = "done" →
      human_step n s resp = StepResult.terminated s n) ∧
    (pyLower (pyStrip resp) ≠ "done" →
      human_step n s resp = StepResult.goOn
        { s with human_feedback :=
            s.human_feedback ++ [{ role := "human", content := resp, mid := some n }] }
        (n + 1)) :=
  ⟨fun h => human_step_done h, fun h => human_step_goOn h hl⟩

theorem feedback_step_spec_witness :
    human_step 0 initial_state " Done " = StepResult.terminated initial_state 0 ∧
    human_step 0 initial_state "Make it shorter" = StepResult.goOn
      { initial_state with human_feedback :=
          initial_state.human_feedback ++
            [{ role := "human", content := "Make it shorter", mid := some 0 }] } 1 :=
  ⟨(feedback_step_spec 0 initial_state " Done " (by simp [initial_state])).1 (by decide),
   (feedback_step_spec 0 initial_state "Make it shorter"
      (by simp [initial_state])).2 (by decide)⟩

/-- C2: the generation step signals an error precisely when the
generator fails on all three attempts (with the carried errors in the
prompts), in which case the final attempt's error is re-raised; the
engine then reports the failure with the state exactly as it was before
the call, and any run failure stems from such an exhausted cycle. -/
theorem generation_failure_spec (gen : Generator) (s : State) (e : String) :
    ((generate_linkedin_post gen s).1 = Except.error e ↔
      ∃ e1 e2,
        gen 0 ⟨s.linkedin_topic, latest_feedback s, ""⟩ = Except.error e1 ∧
        gen 1 ⟨s.linkedin_topic, latest_feedback s, "Error occurred: " ++ e1⟩
          = Except.error e2 ∧
        gen 2 ⟨s.linkedin_topic, latest_feedback s, "Error occurred: " ++ e2⟩
          = Except.error e) ∧
    (∀ (gens : Nat → Generator) (tid : String) (resps : List String) (cycle n : Nat),
      (generate_linkedin_post (gens cycle) s).1 = Except.error e →
      runAux gens tid resps cycle s n = (RunResult.failed e s n, [])) ∧
    (∀ (gens : Nat → Generator) (tid : String) (resps : List String)
       (cycle n : Nat) (w : String) (s2 : State) (n2 : Nat) (evs : List EngineEvent),
      runAux gens tid resps cycle s n = (RunResult.failed w s2 n2, evs) →
      ∃ c, (generate_linkedin_post (gens c) s2).1 = Except.error w) :=
  ⟨generate_error_iff gen s e,
   fun _ _ resps _ _ herr => runAux_err herr resps,
   fun _ _ resps cycle n w s2 n2 evs h => runAux_failed resps cycle s n w s2 n2 evs h⟩

/-- Generator that always fails, used as a concrete witness input. -/
def genFailW : Generator := fun _ _ => Except.error "boom"

theorem generation_failure_spec_witness :
    (∃ e1 e2,
      genFailW 0 ⟨initial_state.linkedin_topic, latest_feedback initial_state, ""⟩
        = Except.error e1 ∧
      genFailW 1 ⟨initial_state.linkedin_topic, latest_feedback initial_state,
        "Error occurred: " ++ e1⟩ = Except.error e2 ∧
      genFailW 2 ⟨initial_state.linkedin_topic, latest_feedback initial_state,
        "Error occurred: " ++ e2⟩ = Except.error "boom") ∧
    runAux (fun _ => genFailW) "t" ["x"] 0 initial_state 0
      = (RunResult.failed "boom" initial_state 0, []) ∧
    (∃ _c : Nat, (generate_linkedin_post genFailW initial_state).1
      = Except.error "boom") :=
  ⟨(generation_failure_spec genFailW initial_state "boom").1.mp rfl,
   (generation_failure_spec genFailW initial_state "boom").2.1
     (fun _ => genFailW) "t" ["x"] 0 0 rfl,
   (generation_failure_spec genFailW initial_state "boom").2.2
     (fun _ => genFailW) "t" ["x"] 0 0 "boom" initial_state 0 []
     ((generation_failure_spec genFailW initial_state "boom").2.1
       (fun _ => genFailW) "t" ["x"] 0 0 rfl)⟩

/-- C3: on a successful generation cycle, the merged state appends
exactly one new draft to generated_post, and human_feedback is left
unchanged when it was non-empty, or becomes the single "No Feedback
yet" placeholder entry when it was empty. -/
theorem generation_step_spec (gen : Generator) (s : State) (n : Nat) (u : GenUpdate)
    (hg : WF n s.generated_post) (hh : WF n s.human_feedback)
    (hok : (generate_linkedin_post gen s).1 = Except.ok u) :
    ∃ post,
      u.generated_post = [AIMessage post] ∧
      (applyGenUpdate n s u).1.generated_post
        = s.generated_post ++ [{ role := "ai", content := post, mid := some n }] ∧
      (applyGenUpdate n s u).1.human_feedback
        = if s.human_feedback = [] then
            [{ role := "human", content := "No Feedback yet", mid := some (n + 1) }]
          else s.human_feedback := by
  obtain ⟨post, rfl⟩ := generate_ok_shape hok
  refine ⟨post, rfl, ?_, ?_⟩
  · by_cases hne : s.human_feedback = []
    · rw [applyGenUpdate_empty post hg hne]
    · rw [applyGenUpdate_nonempty post hg hh hne]
  · by_cases hne : s.human_feedback = []
    · rw [applyGenUpdate_empty post hg hne, if_pos hne]
    · rw [applyGenUpdate_nonempty post hg hh hne, if_neg hne]

/-- Generator that always succeeds, used as a concrete witness input. -/
def genOKW : Generator := fun _ _ => Except.ok "POST"

theorem generation_step_spec_witness :
    ∃ post,
      (⟨[AIMessage "POST"], [HumanMessage "No Feedback yet"]⟩ : GenUpdate).generated_post
        = [AIMessage post] ∧
      (applyGenUpdate 0 initial_state
          ⟨[AIMessage "POST"], [HumanMessage "No Feedback yet"]⟩).1.generated_post
        = initial_state.generated_post
            ++ [{ role := "ai", content := post, mid := some 0 }] ∧
      (applyGenUpdate 0 initial_state
          ⟨[AIMessage "POST"], [HumanMessage "No Feedback yet"]⟩).1.human_feedback
        = if initial_state.human_feedback = [] then
            [{ role := "human", content := "No Feedback yet", mid := some 1 }]
          else initial_state.human_feedback :=
  generation_step_spec genOKW initial_state 0
    ⟨[AIMessage "POST"], [HumanMessage "No Feedback yet"]⟩
    (WF_nil 0) (WF_nil 0) rfl

/-- C5: both workflow steps only ever append: the drafts and the
feedback of the state before a generation step or a feedback step are
prefixes of those after it; nothing is removed, replaced or
reordered. -/
theorem append_only_steps :
    (∀ (gen : Generator) (n : Nat) (s : State) (u : GenUpdate),
      WF n s.generated_post → WF n s.human_feedback →
      (generate_linkedin_post gen s).1 = Except.ok u →
      s.generated_post <+: (applyGenUpdate n s u).1.generated_post ∧
      s.human_feedback <+: (applyGenUpdate n s u).1.human_feedback) ∧
    (∀ (n : Nat) (s : State) (resp : String),
      (∀ m ∈ s.human_feedback, ∃ i, m.mid = some i ∧ i < n) →
      s.generated_post <+: (human_step n s resp).state.generated_post ∧
      s.human_feedback <+: (human_step n s resp).state.human_feedback) := by
  constructor
  · intro gen n s u hg hh hok
    obtain ⟨post, rfl⟩ := generate_ok_shape hok
    obtain ⟨s1, n1, happ, _, hgp1, _, _, hpre1, _, _, _⟩ := applyGen_shape post hg hh
    simp only [happ]
    exact ⟨by rw [hgp1]; exact List.prefix_append _ _, hpre1⟩
  · intro n s resp hl
    by_cases hdone : pyLower (pyStrip resp) = "done"
    · rw [human_step_done hdone]
      exact ⟨List.prefix_refl _, List.prefix_refl _⟩
    · rw [human_step_goOn hdone hl]
      exact ⟨List.prefix_refl _, List.prefix_append _ _⟩

theorem append_only_steps_witness :
    (initial_state.generated_post <+:
      (applyGenUpdate 0 initial_state
        ⟨[AIMessage "POST"], [HumanMessage "No Feedback yet"]⟩).1.generated_post ∧
     initial_state.human_feedback <+:
      (applyGenUpdate 0 initial_state
        ⟨[AIMessage "POST"], [HumanMessage "No Feedback yet"]⟩).1.human_feedback) ∧
    (initial_state.generated_post <+:
      (human_step 0 initial_state "Make it shorter").state.generated_post ∧
     initial_state.human_feedback <+:
      (human_step 0 initial_state "Make it shorter").state.human_feedback) :=
  ⟨append_only_steps.1 genOKW 0 initial_state
     ⟨[AIMessage "POST"], [HumanMessage "No Feedback yet"]⟩ (WF_nil 0) (WF_nil 0) rfl,
   append_only_steps.2 0 initial_state "Make it shorter" (by simp [initial_state])⟩

/-- C6: in every run of the modelled engine a checkpoint for the thread
identity is written immediately before each suspension awaiting
feedback, and checkpoints are written nowhere else in the trace. -/
theorem checkpoint_exactly_at_suspension (gens : Nat → Generator) (tid : String)
    (resps : List String) (cycle : Nat) (s : State) (n : Nat) :
    WellCheckpointed tid (runAux gens tid resps cycle s n).2 :=
  wellCheckpointed_runAux gens tid resps cycle s n

/-- C7: the feedback step never modifies the drafts: whatever the
reviewer responds, the generated_post sequence after the step is the
one before it. -/
theorem feedback_step_preserves_drafts (n : Nat) (s : State) (resp : String) :
    (human_step n s resp).state.generated_post = s.generated_post := by
  by_cases hdone : pyLower (pyStrip resp) = "done"
  · rw [human_step_done hdone]
    rfl
  · simp only [human_step, human_node, if_neg hdone]
    rfl

/-- C9: when the feedback sequence is empty and generation succeeds,
the returned update carries the "No Feedback yet" placeholder in its
human_feedback channel, and after the merge the persisted feedback
sequence consists exactly of that placeholder entry. -/
theorem placeholder_persisted (gen : Generator) (s : State) (n : Nat) (u : GenUpdate)
    (hempty : s.human_feedback = [])
    (hok : (generate_linkedin_post gen s).1 = Except.ok u) :
    u.human_feedback = [HumanMessage "No Feedback yet"] ∧
    (applyGenUpdate n s u).1.human_feedback.map Message.content = ["No Feedback yet"] := by
  obtain ⟨post, rfl⟩ := generate_ok_shape hok
  have hfl : feedback_list s = [HumanMessage "No Feedback yet"] := by
    simp [feedback_list, hempty]
  refine ⟨hfl, ?_⟩
  simp only [applyGenUpdate, hfl, hempty]
  rw [add_messages_append_one rfl (by simp)]
  simp [HumanMessage]

theorem placeholder_persisted_witness :
    (⟨[AIMessage "POST"], [HumanMessage "No Feedback yet"]⟩ : GenUpdate).human_feedback
      = [HumanMessage "No Feedback yet"] ∧
    (applyGenUpdate 0 initial_state
        ⟨[AIMessage "POST"], [HumanMessage "No Feedback yet"]⟩).1.human_feedback.map
      Message.content = ["No Feedback yet"] :=
  placeholder_persisted genOKW initial_state 0
    ⟨[AIMessage "POST"], [HumanMessage "No Feedback yet"]⟩ rfl rfl

/-- C10: every run and resume uses the hard-coded thread identity
"linkedin_multi_conversation_thread": every checkpoint of the main run
is written under that key, and a later put for the key supersedes any
earlier checkpoint on read. -/
theorem single_thread_identity :
    thread_config_thread_id = "linkedin_multi_conversation_thread" ∧
    (∀ (gens : Nat → Generator) (resps : List String) (ev : EngineEvent),
      ev ∈ (main_run gens resps).2 →
      ∀ t, ev = EngineEvent.checkpoint t → t = "linkedin_multi_conversation_thread") ∧
    (∀ (store : List (String × Checkpoint)) (c1 c2 : Checkpoint),
      storeGet
        (storePut (storePut store thread_config_thread_id c1) thread_config_thread_id c2)
        thread_config_thread_id = some c2) := by
  refine ⟨rfl, ?_, ?_⟩
  · intro gens resps ev hmem t het
    exact runAux_checkpoint_tid resps 0 initial_state 0 ev hmem t het
  · intro store c1 c2
    simp only [storePut, storeGet]
    rw [List.find?_cons_of_pos _ (by simp)]

/-- Concrete checkpoints for the witness. -/
def checkpointW1 : Checkpoint := ⟨thread_config_thread_id, initial_state, 0⟩

/-- Concrete checkpoints for the witness. -/
def checkpointW2 : Checkpoint := ⟨thread_config_thread_id, initial_state, 1⟩

theorem single_thread_identity_witness :
    thread_config_thread_id = "linkedin_multi_conversation_thread" ∧
    storeGet
      (storePut (storePut [] thread_config_thread_id checkpointW1)
        thread_config_thread_id checkpointW2)
      thread_config_thread_id = some checkpointW2 ∧
    "linkedin_multi_conversation_thread" = "linkedin_multi_conversation_thread" :=
  ⟨single_thread_identity.1,
   single_thread_identity.2.2 [] checkpointW1 checkpointW2,
   single_thread_identity.2.1 (fun _ => genOKW) []
     (EngineEvent.checkpoint "linkedin_multi_conversation_thread") (by decide)
     "linkedin_multi_conversation_thread" rfl⟩

/-- C4: with an always-succeeding generator and a script of N non-"done"
responses followed by "done", the run terminates after exactly N+1
successful generation cycles, with N+1 drafts, and the feedback
sequence is the persisted "No Feedback yet" placeholder followed by the
N responses (hence length N+1, the synthetic entry being persisted and
counted). -/
theorem run_cycles_and_lengths (f : Nat → Nat → Prompt → String) (L : List String)
    (hL : ∀ r ∈ L, pyLower (pyStrip r) ≠ "done") :
    ∃ sfin nfin evs,
      main_run (fun c a p => Except.ok (f c a p)) (L ++ ["done"])
        = (RunResult.terminated sfin nfin, evs) ∧
      sfin.generated_post.length = L.length + 1 ∧
      sfin.human_feedback.length = L.length + 1 ∧
      sfin.human_feedback.map Message.content = "No Feedback yet" :: L ∧
      genCount evs = L.length + 1 := by
  obtain ⟨sfin, nfin, evs, hrun, hlen, hcont, hpre, hcount⟩ :=
    runAux_scripted f thread_config_thread_id L hL 0 initial_state 0 (WF_nil 0) (WF_nil 0)
  have hcont2 : sfin.human_feedback.map Message.content = "No Feedback yet" :: L := by
    rw [hcont]
    rfl
  refine ⟨sfin, nfin, evs, hrun, ?_, ?_, hcont2, hcount⟩
  · simpa [initial_state] using hlen
  · have := congrArg List.length hcont2
    simpa using this

theorem run_cycles_and_lengths_witness :
    (∀ r ∈ ["Make it shorter"], pyLower (pyStrip r) ≠ "done") ∧
    (∃ sfin nfin evs,
      main_run (fun c a p => Except.ok ((fun _ _ _ => "POST" : Nat → Nat → Prompt → String) c a p))
          (["Make it shorter"] ++ ["done"])
        = (RunResult.terminated sfin nfin, evs) ∧
      sfin.generated_post.length = List.length ["Make it shorter"] + 1 ∧
      sfin.human_feedback.length = List.length ["Make it shorter"] + 1 ∧
      sfin.human_feedback.map Message.content = "No Feedback yet" :: ["Make it shorter"] ∧
      genCount evs = List.length ["Make it shorter"] + 1) :=
  ⟨by decide,
   run_cycles_and_lengths (fun _ _ _ => "POST") ["Make it shorter"] (by decide)⟩

/-- C8: the first attempt of the retry loop carries an empty error in
its prompt, and whenever an attempt's prompt is followed by another,
the generator failed on the former and the next prompt carries exactly
the stringified error of that immediately preceding failure. -/
theorem error_carry_forward (gen : Generator) (s : State) :
    ((generate_linkedin_post gen s).2)[0]?
        = some ⟨s.linkedin_topic, latest_feedback s, ""⟩ ∧
    (∀ (i : Nat) (p q : Prompt),
      ((generate_linkedin_post gen s).2)[i]? = some p →
      ((generate_linkedin_post gen s).2)[i + 1]? = some q →
      ∃ err, gen i p = Except.error err ∧
        q = ⟨s.linkedin_topic, latest_feedback s, "Error occurred: " ++ err⟩) := by
  cases h0 : gen 0 ⟨s.linkedin_topic, latest_feedback s, ""⟩ with
  | ok post =>
    have htr : (generate_linkedin_post gen s).2
        = [⟨s.linkedin_topic, latest_feedback s, ""⟩] := by
      simp [generate_linkedin_post, max_retries, retryLoop, h0]
    rw [htr]
    refine ⟨rfl, ?_⟩
    intro i p q hp hq
    rcases i with _ | i
    · simp at hq
    · simp at hp
  | error e1 =>
    cases h1 : gen 1 ⟨s.linkedin_topic, latest_feedback s, "Error occurred: " ++ e1⟩ with
    | ok post =>
      have htr : (generate_linkedin_post gen s).2
          = [⟨s.linkedin_topic, latest_feedback s, ""⟩,
             ⟨s.linkedin_topic, latest_feedback s, "Error occurred: " ++ e1⟩] := by
        simp [generate_linkedin_post, max_retries, retryLoop, h0, h1]
      rw [htr]
      refine ⟨rfl, ?_⟩
      intro i p q hp hq
      rcases i with _ | _ | i
      · simp only [List.getElem?_cons_zero, Option.some.injEq] at hp
        simp only [List.getElem?_cons_succ, List.getElem?_cons_zero,
          Option.some.injEq] at hq
        subst hp
        subst hq
        exact ⟨e1, h0, rfl⟩
      · simp at hq
      · simp at hq
    | error e2 =>
      cases h2 : gen 2 ⟨s.linkedin_topic, latest_feedback s, "Error occurred: " ++ e2⟩ with
      | ok post =>
        have htr : (generate_linkedin_post gen s).2
            = [⟨s.linkedin_topic, latest_feedback s, ""⟩,
               ⟨s.linkedin_topic, latest_feedback s, "Error occurred: " ++ e1⟩,
               ⟨s.linkedin_topic, latest_feedback s, "Error occurred: " ++ e2⟩] := by
          simp [generate_linkedin_post, max_retries, retryLoop, h0, h1, h2]
        rw [htr]
        refine ⟨rfl, ?_⟩
        intro i p q hp hq
        rcases i with _ | _ | _ | i
        · simp only [List.getElem?_cons_zero, Option.some.injEq] at hp
          simp only [List.getElem?_cons_succ, List.getElem?_cons_zero,
            Option.some.injEq] at hq
          subst hp
          subst hq
          exact ⟨e1, h0, rfl⟩
        · simp only [List.getElem?_cons_succ, List.getElem?_cons_zero,
            Option.some.injEq] at hp hq
          subst hp
          subst hq
          exact ⟨e2, h1, rfl⟩
        · simp at hq
        · simp at hq
      | error e3 =>
        have htr : (generate_linkedin_post gen s).2
            = [⟨s.linkedin_topic, latest_feedback s, ""⟩,
               ⟨s.linkedin_topic, latest_feedback s, "Error occurred: " ++ e1⟩,
               ⟨s.linkedin_topic, latest_feedback s, "Error occurred: " ++ e2⟩] := by
          simp [generate_linkedin_post, max_retries, retryLoop, h0, h1, h2]
        rw [htr]
        refine ⟨rfl, ?_⟩
        intro i p q hp hq
        rcases i with _ | _ | _ | i
        · simp only [List.getElem?_cons_zero, Option.some.injEq] at hp
          simp only [List.getElem?_cons_succ, List.getElem?_cons_zero,
            Option.some.injEq] at hq
          subst hp
          subst hq
          exact ⟨e1, h0, rfl⟩
        · simp only [List.getElem?_cons_succ, List.getElem?_cons_zero,
            Option.some.injEq] at hp hq
          subst hp
          subst hq
          exact ⟨e2, h1, rfl⟩
        · simp at hq
        · simp at hq

/-- Generator failing on the first attempt only, used as a concrete
witness input. -/
def genOnceFailW : Generator :=
  fun a _ => if a = 0 then Except.error "E0" else Except.ok "POST"

theorem error_carry_forward_witness :
    ∃ err,
      genOnceFailW 0 ⟨"The future of AI in healthcare", "No Feedback yet", ""⟩
        = Except.error err ∧
      (⟨"The future of AI in healthcare", "No Feedback yet",
          "Error occurred: E0"⟩ : Prompt)
        = ⟨initial_state.linkedin_topic, latest_feedback initial_state,
           "Error occurred: " ++ err⟩ :=
  (error_carry_forward genOnceFailW initial_state).2 0
    ⟨"The future of AI in healthcare", "No Feedback yet", ""⟩
    ⟨"The future of AI in healthcare", "No Feedback yet", "Error occurred: E0"⟩
    rfl rfl

end LinkedInPost
